import Mathlib

/-!
Verification of the VLib catalog manager (src/VLib.py).

The Python program keeps a `Library` object holding a list of `Book`
records, persists it to a JSON file after every mutating operation, and
offers add / remove / search / display / change-status operations.  We
embed the data model and each operation as pure Lean functions: the
mutable `self.books` list becomes an explicit `List Book` argument and
result, the JSON file becomes an explicit JSON value (`JVal`), and the
user-visible error messages become an `OpReport` value.  Whether an
operation called `save_books` is recorded in the `persisted` flag of its
result.
-/

namespace VLib

/-- The `year` field of a book.  The interactive loop passes `input()`
strings to `add_book`, while `load_books` restores whatever the JSON file
holds, so a year is either a string or an integer (spec: "year: string or
integer"). -/
inductive Year where
  | str (s : String)
  | int (n : Int)
deriving DecidableEq

/-- One catalog record, mirroring class `Book` in src/VLib.py: id, title,
author, year and status. -/
structure Book where
  id : Int
  title : String
  author : String
  year : Year
  status : String
deriving DecidableEq

/-- The default status given to new books by `Book.__init__`
(`status="в наличии"`, i.e. "available"). -/
def defaultStatus : String := "в наличии"

/-- The status string meaning "checked out" (`"выдана"`). -/
def issuedStatus : String := "выдана"

/-- The check `new_status in ["в наличии", "выдана"]` from
`Library.change_status`. -/
def statusValid (s : String) : Bool :=
  decide (s = defaultStatus) || decide (s = issuedStatus)

/-- Which user-visible message, if any, an operation printed: success,
the "book with id ... not found" message, or the "invalid status"
message. -/
inductive OpReport where
  | ok
  | notFound
  | invalidStatus
deriving DecidableEq

/-- Result of one catalog operation: the new book list, whether
`save_books` was called, and which message was reported. -/
structure OpResult where
  books : List Book
  persisted : Bool
  report : OpReport
deriving DecidableEq

/-- Embedding of `Library.add_book`: computes `book_id = len(books) + 1`,
appends a new `Book` with the default status, and saves. -/
def add_book (books : List Book) (title author : String) (year : Year) : OpResult :=
  ⟨books ++ [⟨(books.length : Int) + 1, title, author, year, defaultStatus⟩], true, .ok⟩

/-- Embedding of `Library.remove_book`: scan for the first book whose id
matches; remove it and save, or report "not found" and leave the list
unchanged.  (`list.remove` deletes the first identity-equal element,
which is exactly the book found by the scan, since the list never
aliases one object twice.) -/
def remove_book (books : List Book) (book_id : Int) : OpResult :=
  match books with
  | [] => ⟨[], false, .notFound⟩
  | b :: rest =>
    if b.id = book_id then ⟨rest, true, .ok⟩
    else
      let r := remove_book rest book_id
      ⟨b :: r.books, r.persisted, r.report⟩

/-- Embedding of `Library.change_status`: scan for the first book whose
id matches; if found, either set its status and save (valid status) or
report the invalid-status message (invalid status); if no id matches,
report "not found". -/
def change_status (books : List Book) (book_id : Int) (new_status : String) : OpResult :=
  match books with
  | [] => ⟨[], false, .notFound⟩
  | b :: rest =>
    if b.id = book_id then
      if statusValid new_status then
        ⟨{ b with status := new_status } :: rest, true, .ok⟩
      else
        ⟨b :: rest, false, .invalidStatus⟩
    else
      let r := change_status rest book_id new_status
      ⟨b :: r.books, r.persisted, r.report⟩

/-- Python `str(year)`: a string year is itself, an integer year prints
in decimal (with a leading minus for negatives, as in Python). -/
def yearStr (y : Year) : String :=
  match y with
  | .str s => s
  | .int n => toString n

/-- Python `str.lower()`: lowercase the string character by character.
(Python lowercases per the Unicode tables; `Char.toLower` covers the
ASCII range, which is all the comparisons below depend on.) -/
def strLower (s : String) : String :=
  String.mk (s.toList.map Char.toLower)

/-- Test whether `needle` is a prefix of `hay`, over character lists. -/
def hasPref (needle hay : List Char) : Bool :=
  match needle, hay with
  | [], _ => true
  | _ :: _, [] => false
  | c :: cs, d :: ds => decide (c = d) && hasPref cs ds

/-- Test whether `needle` occurs contiguously in `hay`, over character
lists: try every suffix of `hay`. -/
def substrAux (needle hay : List Char) : Bool :=
  match hay with
  | [] => hasPref needle []
  | _ :: ds => hasPref needle hay || substrAux needle ds

/-- Embedding of the Python expression `needle in hay` on strings:
contiguous substring containment. -/
def strContains (hay needle : String) : Bool :=
  substrAux needle.toList hay.toList

/-- The per-book condition of `Library.search_books`:
`query.lower() in book.title.lower() or query.lower() in
book.author.lower() or query.lower() in str(book.year)`.  Note the third
disjunct does not lowercase the year. -/
def matchesQuery (query : String) (b : Book) : Bool :=
  strContains (strLower b.title) (strLower query) ||
  strContains (strLower b.author) (strLower query) ||
  strContains (yearStr b.year) (strLower query)

/-- Embedding of `Library.search_books`: filter the list by
`matchesQuery`, keeping the original order. -/
def search_books (books : List Book) (query : String) : List Book :=
  books.filter (matchesQuery query)

/-- A trace step: one call to `add_book`, `remove_book` or
`change_status` on the store. -/
inductive Op where
  | add (title author : String) (year : Year)
  | remove (book_id : Int)
  | setStatus (book_id : Int) (new_status : String)
deriving DecidableEq

/-- Apply one operation to the in-memory book list. -/
def applyOp (books : List Book) : Op → List Book
  | .add t a y => (add_book books t a y).books
  | .remove i => (remove_book books i).books
  | .setStatus i s => (change_status books i s).books

/-- Run a trace of operations starting from the empty catalog, as a
fresh `Library` with no backing file would. -/
def runOps (ops : List Op) : List Book :=
  ops.foldl applyOp []

/-- True when the operation is a `remove_book` call. -/
def Op.isRemoveOp : Op → Bool
  | .remove _ => true
  | _ => false

/-- True when some book in the list has the given id. -/
def hasBook (books : List Book) (book_id : Int) : Bool :=
  books.any (fun b => decide (b.id = book_id))

/-- A JSON value, as produced by `json.dump` and consumed by
`json.load`.  Objects are key-value association lists; the program only
writes strings and integers, so those are the only scalars modelled.
The byte-level text encoding performed by Python's json module is a
faithful bijection on these values (with `ensure_ascii=False` it emits
non-ASCII characters literally in UTF-8), so the file content is
modelled at this structured level. -/
inductive JVal where
  | jstr (s : String)
  | jint (n : Int)
  | jarr (xs : List JVal)
  | jobj (fields : List (String × JVal))

/-- Encode a year as the JSON value json.dump writes for it. -/
def encodeYear : Year → JVal
  | .str s => .jstr s
  | .int n => .jint n

/-- Embedding of `Book.to_dict`: the JSON object written for one book,
with keys id, title, author, year and status. -/
def to_dict (b : Book) : JVal :=
  .jobj [("id", .jint b.id), ("title", .jstr b.title), ("author", .jstr b.author),
         ("year", encodeYear b.year), ("status", .jstr b.status)]

/-- Embedding of `Library.save_books`: the full JSON document written to
the backing file, an array of one object per book in order. -/
def save_books (books : List Book) : JVal :=
  .jarr (books.map to_dict)

/-- Key lookup in a JSON object, as `book['id']` does on the dict
produced by `json.load`; `none` when the key is missing (Python would
raise `KeyError`, a fatal error). -/
def lookupField (key : String) : List (String × JVal) → Option JVal
  | [] => none
  | p :: rest => if p.1 = key then some p.2 else lookupField key rest

/-- Read a JSON value as an integer id. -/
def asInt : JVal → Option Int
  | .jint n => some n
  | _ => none

/-- Read a JSON value as a string field. -/
def asStr : JVal → Option String
  | .jstr s => some s
  | _ => none

/-- Read a JSON value as a year: either a string or an integer. -/
def asYear : JVal → Option Year
  | .jstr s => some (.str s)
  | .jint n => some (.int n)
  | _ => none

/-- Reconstruct one `Book` from its persisted JSON object, reading the
five fields the way the comprehension in `Library.load_books` does:
`Book(book_id=book['id'], title=book['title'], author=book['author'],
year=book['year'], status=book['status'])`. -/
def bookOfJson (j : JVal) : Option Book :=
  match j with
  | .jobj fields => do
    let i ← lookupField "id" fields >>= asInt
    let t ← lookupField "title" fields >>= asStr
    let a ← lookupField "author" fields >>= asStr
    let y ← lookupField "year" fields >>= asYear
    let s ← lookupField "status" fields >>= asStr
    some ⟨i, t, a, y, s⟩
  | _ => none

/-- Decode every element of the persisted array, in file order. -/
def booksOfList : List JVal → Option (List Book)
  | [] => some []
  | j :: rest => do
    let b ← bookOfJson j
    let bs ← booksOfList rest
    some (b :: bs)

/-- Decode a whole JSON document into the book list; the document must
be an array. -/
def booksOfJson (j : JVal) : Option (List Book) :=
  match j with
  | .jarr xs => booksOfList xs
  | _ => none

/-- Embedding of `Library.load_books` called on a store whose list is
`books`: when the backing file does not exist (`file = none`) the list
is left as it is; when it exists, its JSON document replaces the list.
A `none` result models a fatal deserialization error. -/
def load_books (file : Option JVal) (books : List Book) : Option (List Book) :=
  match file with
  | none => some books
  | some j => booksOfJson j

/-- Embedding of `Library.__init__`: start with `self.books = []` and
call `load_books`. -/
def libraryInit (file : Option JVal) : Option (List Book) :=
  load_books file []

/-- The ids of the list are exactly 1, 2, ..., length, in order.  This
holds for every catalog built by add and change-status operations
alone. -/
def goodIds (books : List Book) : Prop :=
  books.map Book.id = (List.range books.length).map (fun n : Nat => (n : Int) + 1)

/-- The boolean prefix test agrees with the prefix relation. -/
lemma hasPref_iff (needle hay : List Char) :
    hasPref needle hay = true ↔ needle <+: hay := by
  induction needle generalizing hay with
  | nil => simp [hasPref]
  | cons c cs ih =>
    cases hay with
    | nil => simp [hasPref]
    | cons d ds => simp [hasPref, ih, List.cons_prefix_cons]

/-- The boolean substring scan agrees with the contiguous-infix
relation. -/
lemma substrAux_iff (needle hay : List Char) :
    substrAux needle hay = true ↔ needle <:+: hay := by
  induction hay with
  | nil => simp [substrAux, hasPref_iff]
  | cons d ds ih =>
    rw [List.infix_cons_iff]
    simp [substrAux, hasPref_iff, ih]

/-- The embedding of Python's `needle in hay` holds exactly when the
needle's characters occur contiguously in the haystack's characters. -/
lemma strContains_iff (hay needle : String) :
    strContains hay needle = true ↔ needle.toList <:+: hay.toList :=
  substrAux_iff needle.toList hay.toList

/-- Changing a status never changes the sequence of ids. -/
lemma change_status_map_id (books : List Book) (i : Int) (s : String) :
    ((change_status books i s).books).map Book.id = books.map Book.id := by
  induction books with
  | nil => rfl
  | cons b rest ih =>
    by_cases hb : b.id = i
    · by_cases hs : statusValid s = true
      · simp [change_status, hb, hs]
      · simp [change_status, hb, hs]
    · simp [change_status, hb, ih]

/-- Changing a status never changes the number of books. -/
lemma change_status_length (books : List Book) (i : Int) (s : String) :
    ((change_status books i s).books).length = books.length := by
  have h := congrArg List.length (change_status_map_id books i s)
  simpa using h

lemma goodIds_nil : goodIds [] := rfl

lemma goodIds_add (books : List Book) (t a : String) (y : Year)
    (h : goodIds books) : goodIds (add_book books t a y).books := by
  unfold goodIds add_book at *
  simp [List.range_succ, h]

lemma goodIds_change_status (books : List Book) (i : Int) (s : String)
    (h : goodIds books) : goodIds (change_status books i s).books := by
  unfold goodIds at *
  rw [change_status_map_id, change_status_length, h]

lemma goodIds_foldl (ops : List Op) :
    ∀ books, goodIds books → ops.all (fun o => !o.isRemoveOp) = true →
      goodIds (ops.foldl applyOp books) := by
  induction ops with
  | nil => intro books h _; simpa using h
  | cons op rest ih =>
    intro books h hall
    rw [List.all_cons, Bool.and_eq_true] at hall
    obtain ⟨hop, hrest⟩ := hall
    cases op with
    | add t a y => exact ih _ (goodIds_add books t a y h) hrest
    | remove i => simp [Op.isRemoveOp] at hop
    | setStatus i s => exact ih _ (goodIds_change_status books i s h) hrest

lemma goodIds_nodup (books : List Book) (h : goodIds books) :
    (books.map Book.id).Nodup := by
  have hinj : Function.Injective (fun n : Nat => (n : Int) + 1) := by
    intro a b hab
    have hab2 : (a : Int) + 1 = (b : Int) + 1 := hab
    omega
  rw [h]
  exact List.Nodup.map hinj (List.nodup_range books.length)

/-- Round-trip of one book through its JSON object. -/
lemma bookOfJson_to_dict (b : Book) : bookOfJson (to_dict b) = some b := by
  cases b with
  | mk i t a y s => cases y <;> rfl

/-- Round-trip of a list of books through the persisted array
elements. -/
lemma booksOfList_map_to_dict (books : List Book) :
    booksOfList (books.map to_dict) = some books := by
  induction books with
  | nil => rfl
  | cons b rest ih => simp [booksOfList, bookOfJson_to_dict, ih]

/-- C1, counterexample: the trace add, add, add, remove 2, add starting
from the empty catalog ends with ids 1, 3, 3 — the new book gets id
`len + 1 = 3` while a live book already carries id 3, so the claimed
id-uniqueness invariant fails. -/
theorem remove_then_add_duplicates_id :
    ((runOps [Op.add "t1" "a1" (.int 2001), Op.add "t2" "a2" (.int 2002),
        Op.add "t3" "a3" (.int 2003), Op.remove 2,
        Op.add "t4" "a4" (.int 2004)]).map Book.id = [1, 3, 3]) ∧
    ¬ ((runOps [Op.add "t1" "a1" (.int 2001), Op.add "t2" "a2" (.int 2002),
        Op.add "t3" "a3" (.int 2003), Op.remove 2,
        Op.add "t4" "a4" (.int 2004)]).map Book.id).Nodup := by
  decide

/-- C1, amended: for every trace of Add and SetStatus operations (no
Remove) starting from the empty catalog, the ids of the records in the
in-memory sequence are pairwise distinct. -/
theorem ids_nodup_without_remove (ops : List Op)
    (h : ops.all (fun o => !o.isRemoveOp) = true) :
    ((runOps ops).map Book.id).Nodup := by
  unfold runOps
  exact goodIds_nodup _ (goodIds_foldl ops [] goodIds_nil h)

/-- Witness for the amended C1 theorem on a concrete three-operation
trace. -/
theorem ids_nodup_without_remove_witness :
    ([Op.add "t1" "a1" (.int 1), Op.add "t2" "a2" (.int 2),
      Op.setStatus 1 "выдана"].all (fun o => !o.isRemoveOp) = true) ∧
    ((runOps [Op.add "t1" "a1" (.int 1), Op.add "t2" "a2" (.int 2),
      Op.setStatus 1 "выдана"]).map Book.id).Nodup :=
  ⟨by decide, ids_nodup_without_remove _ (by decide)⟩

/-- C2, counterexample: with one record whose year is the string "A"
(and whose title and author do not contain "a"), the query "a" is a
case-insensitive substring of the year's string form, yet search
returns nothing: the year disjunct of `search_books` does not lowercase
the year. -/
theorem search_year_not_case_insensitive :
    search_books [⟨1, "Q", "W", .str "A", defaultStatus⟩] "a" = [] ∧
    (strLower "a").toList <:+: (strLower (yearStr (Year.str "A"))).toList := by
  decide

/-- C2, amended: for every catalog and query, search returns exactly
the records, in original sequence order, for which the lowercased query
occurs contiguously in the lowercased title, the lowercased author, or
the raw string form of the year — the year side is compared without
lowercasing. -/
theorem search_books_characterized (books : List Book) (q : String) :
    search_books books q = books.filter (fun b =>
      decide ((strLower q).toList <:+: (strLower b.title).toList ∨
              (strLower q).toList <:+: (strLower b.author).toList ∨
              (strLower q).toList <:+: (yearStr b.year).toList)) := by
  unfold search_books
  apply List.filter_congr
  intro b _
  rw [Bool.eq_iff_iff]
  simp [matchesQuery, strContains_iff, or_assoc]

/-- C3, counterexample: on the empty catalog, SetStatus with the
out-of-enum status "lost" reports the not-found message, not the
invalid-status one — the id is checked before the status. -/
theorem change_status_invalid_absent_id :
    statusValid "lost" = false ∧
    (change_status [] 1 "lost").report = OpReport.notFound ∧
    OpReport.notFound ≠ OpReport.invalidStatus := by
  decide

/-- C3, amended: for every catalog, id, and status outside the
two-value enum, SetStatus leaves the catalog unchanged and does not
persist; it reports the invalid-status condition when some record
carries the id and the not-found condition otherwise. -/
theorem change_status_invalid_noop (books : List Book) (i : Int) (s : String)
    (hs : statusValid s = false) :
    (change_status books i s).books = books ∧
    (change_status books i s).persisted = false ∧
    (change_status books i s).report =
      (if hasBook books i then OpReport.invalidStatus else OpReport.notFound) := by
  induction books with
  | nil => simp [change_status, hasBook]
  | cons b rest ih =>
    by_cases hb : b.id = i
    · simp [change_status, hasBook, hb, hs, List.any_cons]
    · obtain ⟨h1, h2, h3⟩ := ih
      simp [change_status, hasBook, hb, h1, h2, h3, List.any_cons]

/-- Witness for the amended C3 theorem: SetStatus(1, "lost") on a
one-record catalog containing id 1. -/
theorem change_status_invalid_noop_witness :
    statusValid "lost" = false ∧
    ((change_status [⟨1, "t1", "a1", .int 2000, defaultStatus⟩] 1 "lost").books =
       [⟨1, "t1", "a1", .int 2000, defaultStatus⟩] ∧
     (change_status [⟨1, "t1", "a1", .int 2000, defaultStatus⟩] 1 "lost").persisted = false ∧
     (change_status [⟨1, "t1", "a1", .int 2000, defaultStatus⟩] 1 "lost").report =
       (if hasBook [⟨1, "t1", "a1", .int 2000, defaultStatus⟩] 1
        then OpReport.invalidStatus else OpReport.notFound)) :=
  ⟨by decide, change_status_invalid_noop [⟨1, "t1", "a1", .int 2000, defaultStatus⟩] 1 "lost" (by decide)⟩

/-- C4: three Adds from the empty catalog assign ids 1, 2, 3; after
removing id 2, one more Add assigns id 3 again (count-based, not
max-based): the final catalog pairs ids with titles as (1, t1),
(3, t3), (3, t4), the last entry being the newly added record. -/
theorem id_assignment_count_based :
    ((runOps [Op.add "t1" "a1" (.int 1), Op.add "t2" "a2" (.int 2),
       Op.add "t3" "a3" (.int 3)]).map Book.id = [1, 2, 3]) ∧
    ((runOps [Op.add "t1" "a1" (.int 1), Op.add "t2" "a2" (.int 2),
       Op.add "t3" "a3" (.int 3), Op.remove 2, Op.add "t4" "a4" (.int 4)]).map
       (fun b => (b.id, b.title)) = [(1, "t1"), (3, "t3"), (3, "t4")]) := by
  decide

/-- C5: persisting any sequence of records and loading the resulting
JSON document back yields the same records, with identical fields, in
identical order.  The quantification over all books covers all field
values, non-ASCII strings included. -/
theorem save_load_roundtrip (books : List Book) :
    booksOfJson (save_books books) = some books := by
  unfold save_books booksOfJson
  exact booksOfList_map_to_dict books

/-- C6: Add appends exactly one new record whose id is the previous
length plus one, whose title, author and year are the arguments, and
whose status is the default "available" value, and it persists; it
holds for every catalog, so no uniqueness check on titles or authors is
performed. -/
theorem add_book_appends (books : List Book) (t a : String) (y : Year) :
    ∃ nb : Book,
      (add_book books t a y).books = books ++ [nb] ∧
      nb.id = (books.length : Int) + 1 ∧ nb.title = t ∧ nb.author = a ∧
      nb.year = y ∧ nb.status = defaultStatus ∧
      (add_book books t a y).persisted = true :=
  ⟨_, rfl, rfl, rfl, rfl, rfl, rfl, rfl⟩

/-- C7: when no record carries the requested id, Remove leaves the
sequence unchanged, does not persist, and reports the not-found
condition. -/
theorem remove_book_absent_noop (books : List Book) (i : Int)
    (h : ∀ b ∈ books, b.id ≠ i) :
    remove_book books i = ⟨books, false, .notFound⟩ := by
  induction books with
  | nil => rfl
  | cons b rest ih =>
    have hb : b.id ≠ i := h b (List.mem_cons_self b rest)
    have hrest : ∀ x ∈ rest, x.id ≠ i := fun x hx => h x (List.mem_cons_of_mem b hx)
    simp [remove_book, hb, ih hrest]

/-- Witness for C7: Remove(999) on a one-record catalog. -/
theorem remove_book_absent_noop_witness :
    (∀ b ∈ [Book.mk 1 "t1" "a1" (.int 1999) defaultStatus], b.id ≠ (999 : Int)) ∧
    remove_book [Book.mk 1 "t1" "a1" (.int 1999) defaultStatus] 999 =
      ⟨[Book.mk 1 "t1" "a1" (.int 1999) defaultStatus], false, .notFound⟩ :=
  ⟨by decide, remove_book_absent_noop _ 999 (by decide)⟩

/-- C8: when the catalog splits as `pre ++ b :: post` with no id match
in `pre` and `b` carrying the requested id, SetStatus with a valid
status replaces exactly `b`'s status field: `b`'s id, title, author and
year, every record of `pre` and `post`, and the order all survive
verbatim, and the operation persists. -/
theorem change_status_updates_first_match (pre post : List Book) (b : Book)
    (i : Int) (s : String)
    (hpre : ∀ x ∈ pre, x.id ≠ i) (hb : b.id = i) (hs : statusValid s = true) :
    change_status (pre ++ b :: post) i s =
      ⟨pre ++ { b with status := s } :: post, true, .ok⟩ := by
  induction pre with
  | nil => simp [change_status, hb, hs]
  | cons p ps ih =>
    have hp : p.id ≠ i := hpre p (List.mem_cons_self p ps)
    have hps : ∀ x ∈ ps, x.id ≠ i := fun x hx => hpre x (List.mem_cons_of_mem p hx)
    simp [change_status, hp, ih hps]

/-- Witness for C8: set id 1 to "выдана" in a three-record catalog
where the match is the middle record. -/
theorem change_status_updates_first_match_witness :
    (∀ x ∈ [Book.mk 2 "t2" "a2" (.int 2) defaultStatus], x.id ≠ (1 : Int)) ∧
    Book.id (Book.mk 1 "t1" "a1" (.int 1) defaultStatus) = 1 ∧
    statusValid "выдана" = true ∧
    change_status
      ([Book.mk 2 "t2" "a2" (.int 2) defaultStatus] ++
        Book.mk 1 "t1" "a1" (.int 1) defaultStatus ::
          [Book.mk 5 "t5" "a5" (.int 5) defaultStatus]) 1 "выдана" =
      ⟨[Book.mk 2 "t2" "a2" (.int 2) defaultStatus] ++
        Book.mk 1 "t1" "a1" (.int 1) "выдана" ::
          [Book.mk 5 "t5" "a5" (.int 5) defaultStatus], true, .ok⟩ :=
  ⟨by decide, rfl, by decide,
    change_status_updates_first_match
      [Book.mk 2 "t2" "a2" (.int 2) defaultStatus]
      [Book.mk 5 "t5" "a5" (.int 5) defaultStatus]
      (Book.mk 1 "t1" "a1" (.int 1) defaultStatus) 1 "выдана"
      (by decide) rfl (by decide)⟩

/-- C9: a store constructed with no backing file starts empty, and one
constructed from a persisted array holds one record per persisted
element, rebuilt from its id, title, author, year and status fields, in
file order. -/
theorem library_init_from_file (entries : List Book) :
    libraryInit none = some [] ∧
    libraryInit (some (.jarr (entries.map to_dict))) = some entries := by
  refine ⟨rfl, ?_⟩
  unfold libraryInit load_books booksOfJson
  exact booksOfList_map_to_dict entries

/-- C10: when the catalog splits as `pre ++ b :: post` with no id match
in `pre` and `b` carrying the requested id, Remove deletes exactly `b`:
the result is `pre ++ post` with every surviving record, its fields and
the relative order untouched (no renumbering), and the operation
persists.  `post` may itself contain the same id. -/
theorem remove_book_deletes_first_match (pre post : List Book) (b : Book)
    (i : Int) (hpre : ∀ x ∈ pre, x.id ≠ i) (hb : b.id = i) :
    remove_book (pre ++ b :: post) i = ⟨pre ++ post, true, .ok⟩ := by
  induction pre with
  | nil => simp [remove_book, hb]
  | cons p ps ih =>
    have hp : p.id ≠ i := hpre p (List.mem_cons_self p ps)
    have hps : ∀ x ∈ ps, x.id ≠ i := fun x hx => hpre x (List.mem_cons_of_mem p hx)
    simp [remove_book, hp, ih hps]

/-- Witness for C10: removing id 3 from a catalog holding two records
with id 3 deletes only the first and keeps the second intact. -/
theorem remove_book_deletes_first_match_witness :
    (∀ x ∈ ([] : List Book), x.id ≠ (3 : Int)) ∧
    Book.id (Book.mk 3 "t3" "a3" (.int 3) defaultStatus) = 3 ∧
    remove_book
      ([] ++ Book.mk 3 "t3" "a3" (.int 3) defaultStatus ::
        [Book.mk 3 "t4" "a4" (.int 4) issuedStatus]) 3 =
      ⟨[] ++ [Book.mk 3 "t4" "a4" (.int 4) issuedStatus], true, .ok⟩ :=
  ⟨by decide, rfl,
    remove_book_deletes_first_match []
      [Book.mk 3 "t4" "a4" (.int 4) issuedStatus]
      (Book.mk 3 "t3" "a3" (.int 3) defaultStatus) 3 (by decide) rfl⟩

end VLib
